import Mathlib

/-!
Verification of the field-sim simulation/render engine (`src/gfx.cpp`).

The development shallowly embeds the parts of `Field_viz` that the claims
are about:

* the accumulation-surface growth policy `ensure_least_framebuffer_size`
  (sizes are `unsigned`, modelled as `Nat`; all arithmetic there stays far
  below `2^32`, except `std::bit_width`, which is modelled with an explicit
  32-bit fuel matching the width of `unsigned`);
* the constructor's grid rounding (`grid_size /= workgroup_size;
  grid_size *= workgroup_size` and the fatal zero-particle check, where
  `get_total_particles` multiplies two `unsigned` values, hence the
  explicit `% 2^32`);
* `advance_simulation`: the force-source writes into the persistently
  mapped actor block, the explicit flushes and the compute dispatch.
  Host/GPU float values are modelled as real numbers; the trace of buffer
  operations performed by one tick is reified as a `List Op`.
-/

namespace FieldSim

/-- `glm::vec<2, unsigned>`, the `Resolution` alias of `gfx.cpp`. -/
structure Resolution where
  x : Nat
  y : Nat
deriving DecidableEq, Repr

/-- Component-wise `≤` on resolutions. -/
def rle (a b : Resolution) : Prop := a.x ≤ b.x ∧ a.y ≤ b.y

instance (a b : Resolution) : Decidable (rle a b) := by
  unfold rle; infer_instance

/-- `std::bit_width` on `unsigned`, with fuel 32 = the bit width of the
type: the number of bits needed to represent `n` (`0` for `n = 0`). -/
def bitWidthAux : Nat → Nat → Nat
  | 0, _ => 0
  | fuel + 1, n => if n = 0 then 0 else bitWidthAux fuel (n / 2) + 1

/-- `std::bit_width(n)` for a 32-bit `unsigned` `n`. -/
def bit_width (n : Nat) : Nat := bitWidthAux 32 n

/-- `1u << std::bit_width(n)` of `gfx.cpp:290`. -/
def next_po2 (n : Nat) : Nat := 2 ^ bit_width n

/-- `glm::clamp(x, lo, hi) = min(max(x, lo), hi)` on scalars. -/
def clampU (x lo hi : Nat) : Nat := min (max x lo) hi

/-- `max_size` of `Field_viz::ensure_least_framebuffer_size`. -/
def max_size : Resolution := ⟨3840, 2160⟩

/-- One axis of the growth loop at `gfx.cpp:286-293`: a never-sized axis
takes exactly the requested size, a sized axis is clamped between the
power of two `1u << bit_width(req)` and the ceiling. -/
def growAxis (old req maxAxis : Nat) : Nat :=
  if old = 0 then req else clampU old (next_po2 req) maxAxis

/-- Outcome of one `ensure_least_framebuffer_size` call.  `noop` is the
early return at `gfx.cpp:275-276` (no reallocation), `grown` records the
new `accum_fbo_size` after the framebuffer is recreated, `fatal` is the
`FATAL` exit at `gfx.cpp:279-282` and carries the (unchanged)
`accum_fbo_size` at the point of termination. -/
inductive EnsureResult where
  | noop (size : Resolution)
  | grown (size : Resolution)
  | fatal (size : Resolution)
deriving DecidableEq, Repr

/-- `Field_viz::ensure_least_framebuffer_size`, acting on the
`accum_fbo_size` state (the only engine state the function mutates). -/
def ensure_least_framebuffer_size (s required_size : Resolution) : EnsureResult :=
  if required_size.x ≤ s.x ∧ required_size.y ≤ s.y then
    .noop s
  else if max_size.x < required_size.x ∨ max_size.y < required_size.y then
    .fatal s
  else
    .grown ⟨growAxis s.x required_size.x max_size.x,
            growAxis s.y required_size.y max_size.y⟩

/-- The new size of a successful call (`none` on the fatal path). -/
def ensureSize (s e : Resolution) : Option Resolution :=
  match ensure_least_framebuffer_size s e with
  | .noop t => some t
  | .grown t => some t
  | .fatal _ => none

/-- Sizes after each call of a sequence of
`ensure_least_framebuffer_size` calls; `none` as soon as one is fatal. -/
def runEnsures : Resolution → List Resolution → Option (List Resolution)
  | _, [] => some []
  | s, e :: es =>
    match ensureSize s e with
    | none => none
    | some t => (runEnsures t es).map (t :: ·)

/-- The spec's phrase "the smallest power of two ≥ `n`", written from the
spec's words (not from the source) to compare against the source's
`next_po2`. -/
def spec_smallestPo2Ge (n : Nat) : Nat := 2 ^ bit_width (n - 1)

/-- Characterisation of `next_po2`: a power of two strictly above `n`. -/
def isLeastPo2Above (n p : Nat) : Prop :=
  (∃ k, p = 2 ^ k) ∧ n < p ∧ ∀ k, n < 2 ^ k → p ≤ 2 ^ k

-- ---------------------------------------------------------------------
-- Field_viz engine state, constructor, advance_simulation

/-- `GPU_actors::max_vortices` (`gfx.cpp:163`). -/
def max_vortices : Nat := 16

/-- `GPU_actors::max_pushers` (`gfx.cpp:164`). -/
def max_pushers : Nat := 16

/-- `sizeof(GPU_actors::Vortex)`: `alignas(16) { vec2 position; float
force }` is 8 + 4 bytes padded to 16. -/
def sizeof_Vortex : Nat := 16

/-- `sizeof(GPU_actors::Pusher)`, same layout as `Vortex`. -/
def sizeof_Pusher : Nat := 16

/-- `offsetof(GPU_actors, vortices)`: the vortex array is first. -/
def offsetof_vortices : Nat := 0

/-- `offsetof(GPU_actors, pushers)`: `16` vortices of 16 bytes precede
the pusher array. -/
def offsetof_pushers : Nat := offsetof_vortices + max_vortices * sizeof_Vortex

/-- `GPU_actors::Vortex`; host floats are modelled as reals. -/
structure Vortex where
  position : ℝ × ℝ
  force : ℝ

/-- `GPU_actors::Pusher`. -/
structure Pusher where
  position : ℝ × ℝ
  force : ℝ

/-- `GPU_actors`: the actor block, at the granularity of its entries
(each entry being one 16-byte record). -/
structure GPU_actors where
  vortices : Fin 16 → Vortex
  pushers : Fin 16 → Pusher

/-- `Field_viz_config` (`gfx.cpp:11-14`). -/
structure Field_viz_config where
  particle_grid_size : Resolution
  particle_lifetime : Nat

/-- `Field_viz::workgroup_size` (`gfx.cpp:146`). -/
def workgroup_size : Resolution := ⟨32, 32⟩

/-- The `Field_viz` engine state: the fields of the C++ struct that the
claims are about (GL handles carry no state beyond what is modelled). -/
structure Field_viz where
  grid_size : Resolution
  current_tick : Nat
  particle_lifetime : Nat
  accum_fbo_size : Resolution
  actors_buffer_mapped : GPU_actors
  num_vortices : Nat
  num_pushers : Nat

/-- `Field_viz::get_total_particles`: an `unsigned` product, hence the
explicit wrap at `2^32`. -/
def get_total_particles (g : Resolution) : Nat := g.x * g.y % 2 ^ 32

/-- `Field_viz::Field_viz` (`gfx.cpp:175-185`): round the grid down to
the work-group size, fail fatally (`none`) if the particle count rounds
to zero.  The initial contents of the freshly mapped actor block are not
initialized by the code, so they are a parameter. -/
def Field_viz.construct (cfg : Field_viz_config) (initial_mapped : GPU_actors) :
    Option Field_viz :=
  let g : Resolution := ⟨cfg.particle_grid_size.x / workgroup_size.x * workgroup_size.x,
                         cfg.particle_grid_size.y / workgroup_size.y * workgroup_size.y⟩
  if get_total_particles g = 0 then none
  else some
    { grid_size := g
      current_tick := 0
      particle_lifetime := cfg.particle_lifetime
      accum_fbo_size := ⟨0, 0⟩
      actors_buffer_mapped := initial_mapped
      num_vortices := 0
      num_pushers := 0 }

/-- The three `add_vortex` records of one tick (`gfx.cpp:242-244`),
as a function of the tick and the grid extent (`w`, `h` are the float
values of `grid_size`); `sec = current_tick / 60.0f`. -/
noncomputable def tick_vortices (tick : Nat) (w h : ℝ) : Fin 3 → Vortex :=
  fun i =>
    let sec : ℝ := (tick : ℝ) / 60
    match i with
    | ⟨0, _⟩ => ⟨(w * 0.5, h * 0.5), 200⟩
    | ⟨1, _⟩ => ⟨(w * 0.2, h * 0.1), 70 * Real.sin (sec * 0.5)⟩
    | ⟨2, _⟩ => ⟨(w * 0.3, h * 0.3), 70 * Real.cos (sec * 0.5)⟩

/-- The two `add_pusher` records of one tick (`gfx.cpp:246-247`). -/
noncomputable def tick_pushers (tick : Nat) (w h : ℝ) : Fin 2 → Pusher :=
  fun i =>
    let sec : ℝ := (tick : ℝ) / 60
    match i with
    | ⟨0, _⟩ => ⟨(w * 0.3, h * 0.9), 200 * Real.sin sec⟩
    | ⟨1, _⟩ => ⟨(w * 0.7, h * 0.5), 75 + 75 * Real.sin (sec * 1.5)⟩

/-- One buffer/GL operation issued by `advance_simulation`, reified so
that ordering and byte ranges can be stated. -/
inductive Op where
  | write_vortex (idx : Nat)
  | write_pusher (idx : Nat)
  | use_program
  | upload_uniforms (tick lifetime nv np : Nat)
  | flush_range (offset length : Nat)
  | dispatch (x y : Nat)
deriving DecidableEq, Repr

/-- The operation sequence of one `advance_simulation` call, in program
order (`gfx.cpp:226-272`): host writes of the actor entries, program
bind, uniform uploads, the two explicit flushes, the compute dispatch. -/
def advance_trace (tick lifetime nv np gx gy : Nat) : List Op :=
  [.write_vortex 0, .write_vortex 1, .write_vortex 2,
   .write_pusher 0, .write_pusher 1,
   .use_program,
   .upload_uniforms tick lifetime nv np,
   .flush_range offsetof_vortices (sizeof_Vortex * nv),
   .flush_range offsetof_pushers (sizeof_Pusher * np),
   .dispatch (gx / workgroup_size.x) (gy / workgroup_size.y)]

/-- `Field_viz::advance_simulation`: write this tick's force sources
into the mapped actor block (entries `0..2` of the vortex array, `0..1`
of the pusher array; the counters end at 3 and 2), flush exactly those
ranges, dispatch, increment the tick.  Returns the new state and the
operation trace. -/
noncomputable def Field_viz.advance_simulation (s : Field_viz) :
    Field_viz × List Op :=
  let w : ℝ := s.grid_size.x
  let h : ℝ := s.grid_size.y
  let vs := tick_vortices s.current_tick w h
  let ps := tick_pushers s.current_tick w h
  let nv : Nat := 3
  let np : Nat := 2
  let actors : GPU_actors :=
    { vortices := fun i =>
        if hi : i.val < 3 then vs ⟨i.val, hi⟩ else s.actors_buffer_mapped.vortices i
      pushers := fun i =>
        if hi : i.val < 2 then ps ⟨i.val, hi⟩ else s.actors_buffer_mapped.pushers i }
  ({ s with
      actors_buffer_mapped := actors
      num_vortices := nv
      num_pushers := np
      current_tick := s.current_tick + 1 },
   advance_trace s.current_tick s.particle_lifetime nv np s.grid_size.x s.grid_size.y)

/-- A concrete actor-block content (used as the arbitrary initial
contents of the mapped buffer in witnesses). -/
noncomputable def actors0 : GPU_actors :=
  ⟨fun _ => ⟨(0, 0), 0⟩, fun _ => ⟨(0, 0), 0⟩⟩

/-- A concrete fresh engine state: 640×480 grid, tick 0. -/
noncomputable def field_viz0 : Field_viz :=
  { grid_size := ⟨640, 480⟩
    current_tick := 0
    particle_lifetime := 200
    accum_fbo_size := ⟨0, 0⟩
    actors_buffer_mapped := actors0
    num_vortices := 0
    num_pushers := 0 }

/-- Is this operation a host write into the vortex array? -/
def Op.is_vortex_write : Op → Bool
  | .write_vortex _ => true
  | _ => false

/-- Is this operation a host write into the pusher array? -/
def Op.is_pusher_write : Op → Bool
  | .write_pusher _ => true
  | _ => false

/-- Is this operation a host write into the actor block? -/
def Op.is_actor_write (op : Op) : Bool :=
  op.is_vortex_write || op.is_pusher_write

/-- Is this operation a mapped-range flush? -/
def Op.is_flush : Op → Bool
  | .flush_range _ _ => true
  | _ => false

/-- Is this operation the flush of the vortex sub-array (a flush
starting at the vortex-array offset)? -/
def Op.is_vortex_flush : Op → Bool
  | .flush_range o _ => o == offsetof_vortices
  | _ => false

/-- Is this operation the flush of the pusher sub-array? -/
def Op.is_pusher_flush : Op → Bool
  | .flush_range o _ => o == offsetof_pushers
  | _ => false

/-- Is this operation the compute dispatch? -/
def Op.is_dispatch : Op → Bool
  | .dispatch _ _ => true
  | _ => false

/-- The actor-block bytes written by one operation: entry `i` of the
vortex array occupies bytes `[0 + 16·i, 0 + 16·i + 16)`, entry `i` of
the pusher array bytes `[256 + 16·i, 256 + 16·i + 16)`. -/
def Op.written_bytes : Op → Finset Nat
  | .write_vortex i =>
    Finset.Ico (offsetof_vortices + sizeof_Vortex * i)
      (offsetof_vortices + sizeof_Vortex * i + sizeof_Vortex)
  | .write_pusher i =>
    Finset.Ico (offsetof_pushers + sizeof_Pusher * i)
      (offsetof_pushers + sizeof_Pusher * i + sizeof_Pusher)
  | _ => ∅

/-- The actor-block bytes flushed by one operation. -/
def Op.flushed_bytes : Op → Finset Nat
  | .flush_range o l => Finset.Ico o (o + l)
  | _ => ∅

/-- All bytes written over a trace. -/
def trace_written (t : List Op) : Finset Nat :=
  t.foldr (fun op acc => op.written_bytes ∪ acc) ∅

/-- All bytes flushed over a trace. -/
def trace_flushed (t : List Op) : Finset Nat :=
  t.foldr (fun op acc => op.flushed_bytes ∪ acc) ∅

/-- Every operation matching `p` occurs strictly before every operation
matching `q` in the trace. -/
def happens_before (p q : Op → Bool) (t : List Op) : Prop :=
  ∀ i j, (hi : i < t.length) → (hj : j < t.length) →
    p (t.get ⟨i, hi⟩) = true → q (t.get ⟨j, hj⟩) = true → i < j

-- ---------------------------------------------------------------------
-- bit-width lemmas

theorem bitWidthAux_lt (fuel n : Nat) (h : n < 2 ^ fuel) :
    n < 2 ^ bitWidthAux fuel n := by
  induction fuel generalizing n with
  | zero => simpa [bitWidthAux] using h
  | succ fuel ih =>
    by_cases hn : n = 0
    · simp [bitWidthAux, hn]
    · have hdiv : n / 2 < 2 ^ fuel := by
        have h2 : n < 2 ^ fuel * 2 := by
          have h3 := h; rw [pow_succ] at h3; omega
        omega
      have := ih (n / 2) hdiv
      simp only [bitWidthAux, hn, if_false]
      have h2 : n ≤ 2 * (n / 2) + 1 := by omega
      calc n ≤ 2 * (n / 2) + 1 := h2
        _ < 2 * 2 ^ bitWidthAux fuel (n / 2) := by omega
        _ = 2 ^ (bitWidthAux fuel (n / 2) + 1) := by ring

theorem bitWidthAux_le (fuel n k : Nat) (h : n < 2 ^ k) :
    bitWidthAux fuel n ≤ k := by
  induction fuel generalizing n k with
  | zero => simp [bitWidthAux]
  | succ fuel ih =>
    by_cases hn : n = 0
    · simp [bitWidthAux, hn]
    · simp only [bitWidthAux, hn, if_false]
      have hk : k ≠ 0 := by
        intro hk0; rw [hk0] at h; omega
      obtain ⟨k', rfl⟩ := Nat.exists_eq_succ_of_ne_zero hk
      have : n / 2 < 2 ^ k' := by
        have : n < 2 * 2 ^ k' := by
          have := h; rw [pow_succ] at this; omega
        omega
      exact Nat.succ_le_succ (ih (n / 2) k' this)

theorem next_po2_gt (n : Nat) (h : n < 2 ^ 32) : n < next_po2 n :=
  bitWidthAux_lt 32 n h

theorem next_po2_least (n k : Nat) (h : n < 2 ^ k) : next_po2 n ≤ 2 ^ k :=
  Nat.pow_le_pow_right (by norm_num) (bitWidthAux_le 32 n k h)

theorem next_po2_isLeast (n : Nat) (h : n < 2 ^ 32) :
    isLeastPo2Above n (next_po2 n) :=
  ⟨⟨bit_width n, rfl⟩, next_po2_gt n h, fun k hk => next_po2_least n k hk⟩

-- ---------------------------------------------------------------------
-- growth-step lemmas

theorem growAxis_ge_old (old req maxAxis : Nat) (hold : old ≤ maxAxis) :
    old ≤ growAxis old req maxAxis := by
  unfold growAxis clampU
  split
  · omega
  · omega

theorem growAxis_ge_req (old req maxAxis : Nat) (hreq : req ≤ maxAxis)
    (hfit : req < 2 ^ 32) : req ≤ growAxis old req maxAxis := by
  unfold growAxis clampU
  split
  · omega
  · have := next_po2_gt req hfit
    omega

theorem growAxis_le_max (old req maxAxis : Nat) (hreq : req ≤ maxAxis) :
    growAxis old req maxAxis ≤ maxAxis := by
  unfold growAxis clampU
  split
  · omega
  · omega

theorem fits32_of_le_max (n m : Nat) (h : n ≤ m) (hm : m ≤ 3840) :
    n < 2 ^ 32 := by
  have : (3840 : Nat) < 2 ^ 32 := by norm_num
  omega

/-- One successful step of the growth policy: within the ceiling, a call
never fails, never shrinks either axis, covers the request, and stays
within the ceiling. -/
theorem ensureSize_step (s e : Resolution) (hs : rle s max_size)
    (he : rle e max_size) :
    ∃ t, ensureSize s e = some t ∧ rle s t ∧ rle e t ∧ rle t max_size := by
  obtain ⟨hsx, hsy⟩ := hs
  obtain ⟨hex, hey⟩ := he
  unfold ensureSize ensure_least_framebuffer_size
  by_cases hcov : e.x ≤ s.x ∧ e.y ≤ s.y
  · refine ⟨s, by simp [hcov], ⟨le_refl _, le_refl _⟩, ⟨hcov.1, hcov.2⟩,
      ⟨hsx, hsy⟩⟩
  · have hnof : ¬(max_size.x < e.x ∨ max_size.y < e.y) := by
      simp [max_size] at hex hey ⊢
      omega
    have hfx : e.x < 2 ^ 32 := fits32_of_le_max e.x max_size.x hex (by norm_num [max_size])
    have hfy : e.y < 2 ^ 32 := fits32_of_le_max e.y 3840 (by simp [max_size] at hey; omega) (by norm_num)
    refine ⟨⟨growAxis s.x e.x max_size.x, growAxis s.y e.y max_size.y⟩,
      by simp [hcov, hnof], ?_, ?_, ?_⟩
    · exact ⟨growAxis_ge_old _ _ _ hsx, growAxis_ge_old _ _ _ hsy⟩
    · exact ⟨growAxis_ge_req _ _ _ hex hfx, growAxis_ge_req _ _ _ hey hfy⟩
    · exact ⟨growAxis_le_max _ _ _ hex, growAxis_le_max _ _ _ hey⟩

/-- C3: for every sequence of `ensure_least_framebuffer_size` calls with
extents within the hard ceiling, every call succeeds, and the surface
size after call `k` is component-wise ≥ the size after call `k-1`
(monotone, never decreasing even if a later extent is smaller),
component-wise ≥ the `k`-th requested extent, and component-wise ≤ the
fixed ceiling `{3840, 2160}`. -/
theorem C3_ensure_monotone (s0 : Resolution) (es : List Resolution)
    (hs0 : rle s0 max_size) (hes : ∀ e ∈ es, rle e max_size) :
    ∃ sizes, runEnsures s0 es = some sizes ∧
      List.Chain' rle (s0 :: sizes) ∧
      List.Forall₂ (fun e t => rle e t ∧ rle t max_size) es sizes := by
  induction es generalizing s0 with
  | nil => exact ⟨[], rfl, List.chain'_singleton s0, List.Forall₂.nil⟩
  | cons e es ih =>
    obtain ⟨t, hstep, hst, het, htm⟩ :=
      ensureSize_step s0 e hs0 (hes e (by simp))
    obtain ⟨sizes, hrun, hchain, hfa⟩ :=
      ih t htm (fun x hx => hes x (by simp [hx]))
    refine ⟨t :: sizes, ?_, ?_, List.Forall₂.cons ⟨het, htm⟩ hfa⟩
    · simp [runEnsures, hstep, hrun]
    · exact List.chain'_cons.mpr ⟨hst, hchain⟩

/-- Witness for `C3_ensure_monotone` at the fresh surface and the
two-call sequence of the spec's scenario B. -/
theorem C3_ensure_monotone_witness :
    ∃ sizes,
      runEnsures ⟨0, 0⟩ [⟨800, 600⟩, ⟨1000, 700⟩] = some sizes ∧
      List.Chain' rle (⟨0, 0⟩ :: sizes) ∧
      List.Forall₂ (fun e t => rle e t ∧ rle t max_size)
        [⟨800, 600⟩, ⟨1000, 700⟩] sizes :=
  C3_ensure_monotone ⟨0, 0⟩ [⟨800, 600⟩, ⟨1000, 700⟩] (by decide)
    (by decide)

/-- C4: a request beyond the hard ceiling on either axis, not already
covered by the current surface, terminates fatally, with the stored
surface size unchanged at the point of termination. -/
theorem C4_fatal_above_ceiling (s e : Resolution)
    (hover : max_size.x < e.x ∨ max_size.y < e.y)
    (hnc : ¬(e.x ≤ s.x ∧ e.y ≤ s.y)) :
    ensure_least_framebuffer_size s e = .fatal s := by
  unfold ensure_least_framebuffer_size
  simp [hnc, hover]

/-- Witness for `C4_fatal_above_ceiling`: scenario C,
`ensure_at_least({5000,5000})` on a fresh surface. -/
theorem C4_fatal_above_ceiling_witness :
    ensure_least_framebuffer_size ⟨0, 0⟩ ⟨5000, 5000⟩ = .fatal ⟨0, 0⟩ :=
  C4_fatal_above_ceiling ⟨0, 0⟩ ⟨5000, 5000⟩ (by decide) (by decide)

/-- C5: the first call on a fresh surface (both axes zero) with an extent
within the ceiling yields exactly that extent, with no rounding to a
power of two. -/
theorem C5_first_call_exact (e : Resolution) (he : rle e max_size) :
    ensureSize ⟨0, 0⟩ e = some e := by
  obtain ⟨ex, ey⟩ := e
  obtain ⟨hex, hey⟩ := he
  simp only [max_size] at hex hey
  unfold ensureSize ensure_least_framebuffer_size
  by_cases hcov : ex ≤ 0 ∧ ey ≤ 0
  · rw [if_pos hcov]
    have hx : ex = 0 := by omega
    have hy : ey = 0 := by omega
    simp [hx, hy]
  · have hnof : ¬(max_size.x < ex ∨ max_size.y < ey) := by
      simp only [max_size]; omega
    rw [if_neg hcov, if_neg hnof]
    simp [growAxis]

/-- Witness for `C5_first_call_exact` at extent `{800, 600}`. -/
theorem C5_first_call_exact_witness :
    ensureSize ⟨0, 0⟩ ⟨800, 600⟩ = some ⟨800, 600⟩ :=
  C5_first_call_exact ⟨800, 600⟩ (by decide)

/-- C8: within the ceiling, `ensure_least_framebuffer_size` is
idempotent — the first call either no-ops or grows to some size `t`, and
repeating the same extent immediately takes the early-return branch: no
reallocation, size unchanged. -/
theorem C8_idempotent (s e : Resolution) (he : rle e max_size) :
    ∃ t, (ensure_least_framebuffer_size s e = .noop t ∨
          ensure_least_framebuffer_size s e = .grown t) ∧
      ensure_least_framebuffer_size t e = .noop t := by
  obtain ⟨hex, hey⟩ := he
  have hfx : e.x < 2 ^ 32 := fits32_of_le_max e.x max_size.x hex (by norm_num [max_size])
  have hfy : e.y < 2 ^ 32 := fits32_of_le_max e.y 3840 (by simp [max_size] at hey; omega) (by norm_num)
  unfold ensure_least_framebuffer_size
  by_cases hcov : e.x ≤ s.x ∧ e.y ≤ s.y
  · exact ⟨s, Or.inl (by simp [hcov]), by simp [hcov]⟩
  · have hnof : ¬(max_size.x < e.x ∨ max_size.y < e.y) := by omega
    refine ⟨⟨growAxis s.x e.x max_size.x, growAxis s.y e.y max_size.y⟩,
      Or.inr (by simp [hcov, hnof]), ?_⟩
    have hx := growAxis_ge_req s.x e.x max_size.x hex hfx
    have hy := growAxis_ge_req s.y e.y max_size.y hey hfy
    simp [hx, hy]

/-- Witness for `C8_idempotent` at state `{800, 600}`, extent
`{1000, 700}`. -/
theorem C8_idempotent_witness :
    ∃ t, (ensure_least_framebuffer_size ⟨800, 600⟩ ⟨1000, 700⟩ = .noop t ∨
          ensure_least_framebuffer_size ⟨800, 600⟩ ⟨1000, 700⟩ = .grown t) ∧
      ensure_least_framebuffer_size t ⟨1000, 700⟩ = .noop t :=
  C8_idempotent ⟨800, 600⟩ ⟨1000, 700⟩ (by decide)

/-- C1 counterexample: on surface `{800, 600}` a request `{1024, 700}`
makes the code produce `2048` on x (`1u << bit_width(1024) = 2048`),
while the claim's "smallest power of two ≥ requested and ≥ previous,
clamped to the ceiling" predicts `1024`. -/
theorem C1_counterexample :
    ensureSize ⟨800, 600⟩ ⟨1024, 700⟩ = some ⟨2048, 1024⟩ ∧
    min (spec_smallestPo2Ge (max 1024 800)) 3840 = 1024 ∧
    (2048 : Nat) ≠ 1024 := by decide

/-- C1 (amended): on a growing call (request not covered, within the
ceiling), an axis that has been sized before becomes the previous size
clamped between `p` and the ceiling, where `p` is the smallest power of
two strictly greater than the requested size on that axis; and the
scenario `ensure({800,600})` then `ensure({1000,700})` on a fresh
surface yields `{1024, 1024}`. -/
theorem C1_grow_po2 (s e : Resolution) (he : rle e max_size)
    (hnc : ¬(e.x ≤ s.x ∧ e.y ≤ s.y)) :
    (∃ t, ensure_least_framebuffer_size s e = .grown t ∧
      (s.x ≠ 0 → ∃ p, isLeastPo2Above e.x p ∧ t.x = clampU s.x p max_size.x) ∧
      (s.y ≠ 0 → ∃ p, isLeastPo2Above e.y p ∧ t.y = clampU s.y p max_size.y)) ∧
    runEnsures ⟨0, 0⟩ [⟨800, 600⟩, ⟨1000, 700⟩] =
      some [⟨800, 600⟩, ⟨1024, 1024⟩] := by
  obtain ⟨hex, hey⟩ := he
  simp only [max_size] at hex hey
  refine ⟨?_, by decide⟩
  have hfx : e.x < 2 ^ 32 := by
    have : (3840 : Nat) < 2 ^ 32 := by norm_num
    omega
  have hfy : e.y < 2 ^ 32 := by
    have : (3840 : Nat) < 2 ^ 32 := by norm_num
    omega
  have hnof : ¬(max_size.x < e.x ∨ max_size.y < e.y) := by
    simp only [max_size]; omega
  unfold ensure_least_framebuffer_size
  rw [if_neg hnc, if_neg hnof]
  refine ⟨_, rfl, fun hx0 => ⟨next_po2 e.x, next_po2_isLeast e.x hfx, ?_⟩,
    fun hy0 => ⟨next_po2 e.y, next_po2_isLeast e.y hfy, ?_⟩⟩
  · simp [growAxis, hx0]
  · simp [growAxis, hy0]

/-- Witness for `C1_grow_po2`: surface `{800, 600}`, request
`{1000, 700}`. -/
theorem C1_grow_po2_witness :
    (∃ t, ensure_least_framebuffer_size ⟨800, 600⟩ ⟨1000, 700⟩ = .grown t ∧
      ((800 : Nat) ≠ 0 →
        ∃ p, isLeastPo2Above 1000 p ∧ t.x = clampU 800 p max_size.x) ∧
      ((600 : Nat) ≠ 0 →
        ∃ p, isLeastPo2Above 700 p ∧ t.y = clampU 600 p max_size.y)) ∧
    runEnsures ⟨0, 0⟩ [⟨800, 600⟩, ⟨1000, 700⟩] =
      some [⟨800, 600⟩, ⟨1024, 1024⟩] :=
  C1_grow_po2 ⟨800, 600⟩ ⟨1000, 700⟩ (by decide) (by decide)

/-- C6: the constructed engine's grid extent is a multiple of the
work-group size on each axis and no larger than the requested extent;
if either axis rounds down to zero, construction fails fatally. -/
theorem C6_grid_rounding (cfg : Field_viz_config) (a : GPU_actors) :
    (∀ v, Field_viz.construct cfg a = some v →
      v.grid_size.x % workgroup_size.x = 0 ∧
      v.grid_size.y % workgroup_size.y = 0 ∧
      v.grid_size.x ≤ cfg.particle_grid_size.x ∧
      v.grid_size.y ≤ cfg.particle_grid_size.y) ∧
    (cfg.particle_grid_size.x / workgroup_size.x * workgroup_size.x = 0 ∨
     cfg.particle_grid_size.y / workgroup_size.y * workgroup_size.y = 0 →
      Field_viz.construct cfg a = none) := by
  constructor
  · intro v hv
    unfold Field_viz.construct at hv
    dsimp only at hv
    split at hv
    · exact absurd hv (by simp)
    · have hv' := Option.some.inj hv
      subst hv'
      refine ⟨Nat.mul_mod_left _ _, Nat.mul_mod_left _ _, ?_, ?_⟩
      · exact Nat.div_mul_le_self _ _
      · exact Nat.div_mul_le_self _ _
  · intro hz
    unfold Field_viz.construct
    have : get_total_particles
        ⟨cfg.particle_grid_size.x / workgroup_size.x * workgroup_size.x,
         cfg.particle_grid_size.y / workgroup_size.y * workgroup_size.y⟩ = 0 := by
      unfold get_total_particles
      rcases hz with h | h <;> simp [h]
    simp [this]

/-- Witness for `C6_grid_rounding`: a 100×50 request rounds to 96×32 (a
successful construction), and a 20×50 request rounds the x axis to zero
(fatal). -/
theorem C6_grid_rounding_witness :
    (∀ v, Field_viz.construct ⟨⟨100, 50⟩, 200⟩ actors0 = some v →
      v.grid_size.x % workgroup_size.x = 0 ∧
      v.grid_size.y % workgroup_size.y = 0 ∧
      v.grid_size.x ≤ 100 ∧ v.grid_size.y ≤ 50) ∧
    Field_viz.construct ⟨⟨20, 50⟩, 200⟩ actors0 = none :=
  ⟨fun v hv => (C6_grid_rounding ⟨⟨100, 50⟩, 200⟩ actors0).1 v hv,
   (C6_grid_rounding ⟨⟨20, 50⟩, 200⟩ actors0).2 (Or.inl rfl)⟩

/-- C9: after any `advance_simulation` call the per-kind counts are
within the fixed capacities of the actor block (they are 3 and 2, below
16), so no write lands beyond either fixed-capacity array. -/
theorem C9_counts_within_capacity (s : Field_viz) :
    (s.advance_simulation).1.num_vortices ≤ max_vortices ∧
    (s.advance_simulation).1.num_pushers ≤ max_pushers := by
  simp [Field_viz.advance_simulation, max_vortices, max_pushers]

/-- C10: one `advance_simulation` call writes exactly the first 3 vortex
entries and the first 2 pusher entries of the mapped actor block (the
returned counts); every entry at index ≥ the count of its kind is left
unchanged. -/
theorem C10_writes_only_counted_entries (s : Field_viz) :
    (s.advance_simulation).1.num_vortices = 3 ∧
    (s.advance_simulation).1.num_pushers = 2 ∧
    (∀ i : Fin 16, 3 ≤ i.val →
      (s.advance_simulation).1.actors_buffer_mapped.vortices i =
        s.actors_buffer_mapped.vortices i) ∧
    (∀ i : Fin 16, 2 ≤ i.val →
      (s.advance_simulation).1.actors_buffer_mapped.pushers i =
        s.actors_buffer_mapped.pushers i) := by
  refine ⟨rfl, rfl, ?_, ?_⟩
  · intro i hi
    show (if hlt : i.val < 3 then _ else s.actors_buffer_mapped.vortices i) =
      s.actors_buffer_mapped.vortices i
    rw [dif_neg (by omega)]
  · intro i hi
    show (if hlt : i.val < 2 then _ else s.actors_buffer_mapped.pushers i) =
      s.actors_buffer_mapped.pushers i
    rw [dif_neg (by omega)]

/-- Witness for `C10_writes_only_counted_entries` at a concrete engine
state and the first untouched index of each kind. -/
theorem C10_writes_only_counted_entries_witness :
    (field_viz0.advance_simulation).1.actors_buffer_mapped.vortices ⟨3, by norm_num⟩ =
      field_viz0.actors_buffer_mapped.vortices ⟨3, by norm_num⟩ ∧
    (field_viz0.advance_simulation).1.actors_buffer_mapped.pushers ⟨2, by norm_num⟩ =
      field_viz0.actors_buffer_mapped.pushers ⟨2, by norm_num⟩ :=
  ⟨(C10_writes_only_counted_entries field_viz0).2.2.1 ⟨3, by norm_num⟩ (by norm_num),
   (C10_writes_only_counted_entries field_viz0).2.2.2 ⟨2, by norm_num⟩ (by norm_num)⟩

-- ---------------------------------------------------------------------
-- advance_simulation trace lemmas

theorem advance_trace_filter (a b c d e f : Nat) :
    (advance_trace a b c d e f).filter Op.is_flush =
      [.flush_range offsetof_vortices (sizeof_Vortex * c),
       .flush_range offsetof_pushers (sizeof_Pusher * d)] := by
  simp [advance_trace, Op.is_flush, List.filter]

theorem advance_trace_bytes (a b e f : Nat) :
    trace_flushed (advance_trace a b 3 2 e f) =
      trace_written (advance_trace a b 3 2 e f) := by
  simp only [advance_trace, trace_flushed, trace_written, List.foldr,
    Op.flushed_bytes, Op.written_bytes]
  ext x
  simp [Finset.mem_union, Finset.mem_Ico,
    offsetof_vortices, offsetof_pushers, sizeof_Vortex, sizeof_Pusher,
    max_vortices]
  omega

theorem advance_trace_ordering (a b c d e f : Nat) :
    happens_before Op.is_vortex_write Op.is_vortex_flush
      (advance_trace a b c d e f) ∧
    happens_before Op.is_pusher_write Op.is_pusher_flush
      (advance_trace a b c d e f) ∧
    happens_before Op.is_flush Op.is_dispatch (advance_trace a b c d e f) := by
  refine ⟨?_, ?_, ?_⟩ <;>
  · intro i j hi hj hp hq
    simp only [advance_trace, List.length] at hi hj
    interval_cases i <;> interval_cases j <;>
      simp_all [advance_trace, Op.is_vortex_write, Op.is_vortex_flush,
        Op.is_pusher_write, Op.is_pusher_flush, Op.is_flush, Op.is_dispatch,
        offsetof_vortices, offsetof_pushers, max_vortices, sizeof_Vortex,
        List.get]

/-- C7: one `advance_simulation` call flushes exactly two byte ranges —
the vortex sub-array of length `num_vortices` at the vortex-array offset
and the pusher sub-array of length `num_pushers` at the pusher-array
offset; the flushed bytes equal exactly the bytes written this tick, and
in the tick's operation sequence each flush comes after the writes of
its array and before the compute dispatch. -/
theorem C7_flush_exact_and_ordered (s : Field_viz) :
    ((s.advance_simulation).2.filter Op.is_flush =
      [Op.flush_range offsetof_vortices
        (sizeof_Vortex * (s.advance_simulation).1.num_vortices),
       Op.flush_range offsetof_pushers
        (sizeof_Pusher * (s.advance_simulation).1.num_pushers)]) ∧
    trace_flushed (s.advance_simulation).2 =
      trace_written (s.advance_simulation).2 ∧
    happens_before Op.is_vortex_write Op.is_vortex_flush
      (s.advance_simulation).2 ∧
    happens_before Op.is_pusher_write Op.is_pusher_flush
      (s.advance_simulation).2 ∧
    happens_before Op.is_flush Op.is_dispatch (s.advance_simulation).2 := by
  have h2 : (s.advance_simulation).2 =
      advance_trace s.current_tick s.particle_lifetime 3 2
        s.grid_size.x s.grid_size.y := rfl
  have hv : (s.advance_simulation).1.num_vortices = 3 := rfl
  have hp : (s.advance_simulation).1.num_pushers = 2 := rfl
  rw [h2, hv, hp]
  obtain ⟨o1, o2, o3⟩ := advance_trace_ordering s.current_tick
    s.particle_lifetime 3 2 s.grid_size.x s.grid_size.y
  exact ⟨advance_trace_filter _ _ _ _ _ _,
    advance_trace_bytes _ _ _ _, o1, o2, o3⟩

-- ---------------------------------------------------------------------
-- force-field model over time

theorem sin_half_pos : 0 < Real.sin 0.5 :=
  Real.sin_pos_of_pos_of_lt_pi (by norm_num)
    (lt_trans (by norm_num) Real.pi_gt_three)

theorem sin_one_pos : 0 < Real.sin 1 :=
  Real.sin_pos_of_pos_of_lt_pi (by norm_num)
    (lt_trans (by norm_num) Real.pi_gt_three)

theorem sin_three_half_pos : 0 < Real.sin 1.5 :=
  Real.sin_pos_of_pos_of_lt_pi (by norm_num)
    (lt_trans (by norm_num) Real.pi_gt_three)

theorem cos_half_lt_one : Real.cos 0.5 < 1 := by
  have h05pi : (0.5 : ℝ) ≤ Real.pi :=
    le_of_lt (lt_trans (by norm_num) Real.pi_gt_three)
  have h := Real.cos_lt_cos_of_nonneg_of_le_pi (le_refl (0 : ℝ)) h05pi
    (by norm_num : (0 : ℝ) < 0.5)
  rwa [Real.cos_zero] at h

/-- C2 counterexample: vortex 1 is a source whose formula depends on
`sin` of elapsed seconds (its force at tick 60 differs from its force at
tick 0), yet its position at tick 60 equals its position at tick 0 —
force-source positions do not change between the two ticks. -/
theorem C2_counterexample :
    (tick_vortices 60 640 480 ⟨1, by norm_num⟩).force ≠
      (tick_vortices 0 640 480 ⟨1, by norm_num⟩).force ∧
    (tick_vortices 60 640 480 ⟨1, by norm_num⟩).position =
      (tick_vortices 0 640 480 ⟨1, by norm_num⟩).position := by
  refine ⟨?_, rfl⟩
  show (70 : ℝ) * Real.sin (((60 : ℕ) : ℝ) / 60 * 0.5) ≠
    70 * Real.sin (((0 : ℕ) : ℝ) / 60 * 0.5)
  have hsec : ((60 : ℕ) : ℝ) / 60 * 0.5 = 0.5 := by norm_num
  have hz : ((0 : ℕ) : ℝ) / 60 * 0.5 = 0 := by norm_num
  rw [hsec, hz, Real.sin_zero, mul_zero]
  exact ne_of_gt (mul_pos (by norm_num) sin_half_pos)

/-- C2 (amended): from a fresh engine (tick 0) two consecutive
`advance_simulation` calls leave the tick counter at 2; the force-source
positions produced at tick 0 and at tick 60 are equal for every source
(positions are time-independent), while the force magnitudes at those
two ticks differ for every source whose formula depends on `sin`/`cos`
of elapsed seconds — vortex 1 (`70·sin(sec·0.5)`), vortex 2
(`70·cos(sec·0.5)`), pusher 0 (`200·sin(sec)`) and pusher 1
(`75 + 75·sin(sec·1.5)`); vortex 0 has a constant force. -/
theorem C2_tick_and_forces :
    (∀ s : Field_viz, s.current_tick = 0 →
      ((s.advance_simulation).1.advance_simulation).1.current_tick = 2) ∧
    (∀ (w h : ℝ) (i : Fin 3),
      (tick_vortices 60 w h i).position = (tick_vortices 0 w h i).position) ∧
    (∀ (w h : ℝ) (i : Fin 2),
      (tick_pushers 60 w h i).position = (tick_pushers 0 w h i).position) ∧
    (∀ (w h : ℝ),
      (tick_vortices 60 w h ⟨1, by norm_num⟩).force ≠
        (tick_vortices 0 w h ⟨1, by norm_num⟩).force) ∧
    (∀ (w h : ℝ),
      (tick_vortices 60 w h ⟨2, by norm_num⟩).force ≠
        (tick_vortices 0 w h ⟨2, by norm_num⟩).force) ∧
    (∀ (w h : ℝ),
      (tick_pushers 60 w h ⟨0, by norm_num⟩).force ≠
        (tick_pushers 0 w h ⟨0, by norm_num⟩).force) ∧
    (∀ (w h : ℝ),
      (tick_pushers 60 w h ⟨1, by norm_num⟩).force ≠
        (tick_pushers 0 w h ⟨1, by norm_num⟩).force) := by
  have hs05 : ((60 : ℕ) : ℝ) / 60 * 0.5 = 0.5 := by norm_num
  have hz05 : ((0 : ℕ) : ℝ) / 60 * 0.5 = 0 := by norm_num
  have hs1 : ((60 : ℕ) : ℝ) / 60 = 1 := by norm_num
  have hz1 : ((0 : ℕ) : ℝ) / 60 = 0 := by norm_num
  have hs15 : ((60 : ℕ) : ℝ) / 60 * 1.5 = 1.5 := by norm_num
  have hz15 : ((0 : ℕ) : ℝ) / 60 * 1.5 = 0 := by norm_num
  refine ⟨?_, ?_, ?_, ?_, ?_, ?_, ?_⟩
  · intro s hs
    show s.current_tick + 1 + 1 = 2
    rw [hs]
  · intro w h i
    fin_cases i <;> rfl
  · intro w h i
    fin_cases i <;> rfl
  · intro w h
    show (70 : ℝ) * Real.sin (((60 : ℕ) : ℝ) / 60 * 0.5) ≠
      70 * Real.sin (((0 : ℕ) : ℝ) / 60 * 0.5)
    rw [hs05, hz05, Real.sin_zero, mul_zero]
    exact ne_of_gt (mul_pos (by norm_num) sin_half_pos)
  · intro w h
    show (70 : ℝ) * Real.cos (((60 : ℕ) : ℝ) / 60 * 0.5) ≠
      70 * Real.cos (((0 : ℕ) : ℝ) / 60 * 0.5)
    rw [hs05, hz05, Real.cos_zero, mul_one]
    have h1 := cos_half_lt_one
    intro hcontra
    nlinarith
  · intro w h
    show (200 : ℝ) * Real.sin (((60 : ℕ) : ℝ) / 60) ≠
      200 * Real.sin (((0 : ℕ) : ℝ) / 60)
    rw [hs1, hz1, Real.sin_zero, mul_zero]
    exact ne_of_gt (mul_pos (by norm_num) sin_one_pos)
  · intro w h
    show (75 : ℝ) + 75 * Real.sin (((60 : ℕ) : ℝ) / 60 * 1.5) ≠
      75 + 75 * Real.sin (((0 : ℕ) : ℝ) / 60 * 1.5)
    rw [hs15, hz15, Real.sin_zero, mul_zero, add_zero]
    have h1 := sin_three_half_pos
    intro hcontra
    nlinarith

/-- Witness for `C2_tick_and_forces`: the concrete fresh engine and the
sin-dependent vortex 1 at a concrete grid. -/
theorem C2_tick_and_forces_witness :
    ((field_viz0.advance_simulation).1.advance_simulation).1.current_tick = 2 ∧
    (tick_vortices 60 640 480 ⟨1, by norm_num⟩).force ≠
      (tick_vortices 0 640 480 ⟨1, by norm_num⟩).force :=
  ⟨C2_tick_and_forces.1 field_viz0 rfl,
   C2_tick_and_forces.2.2.2.1 640 480⟩

end FieldSim
